import Mathlib

/-!
Shallow embedding of the Showbay task-management service
(`src/showbay`): the task data model (`models/task.py`), request
schemas (`schemas/task.py`), the five lifecycle route handlers
(`api/tasks.py`), the external enrichment client
(`utils/external_api.py`) and the error translation layer
(`utils/exception_handlers.py`).

Timestamps are modelled as natural numbers read from an abstract
monotone clock; each `datetime.utcnow()` call in the source becomes an
explicit clock-reading parameter.  JSON payloads from the external API
are modelled by their serialized string.  The relational storage engine
is an external collaborator (spec section 1), modelled as a list of
rows in insertion order plus a fresh-id counter.
-/

namespace Showbay

/-- The Task row (`models/task.py`, class `Task`).  Field attributes on
the in-memory Python object are nullable references, so the string
fields are `Option String`; `id` is assigned by the persistence
provider at insertion (before that the Python attribute is `None`). -/
structure Task where
  id : Nat
  title : Option String
  description : Option String
  status : Option String
  priority : Option String
  external_id : Option Int
  external_api_data : Option String
  user_id : Option String
  created_at : Nat
  updated_at : Nat
  completed_at : Option Nat
deriving Repr, DecidableEq

/-- Persistence provider state: the task table in insertion (rowid)
order.  Modelled from the spec: the provider (external collaborator,
spec sections 1 and 2) assigns a fresh integer `id` on creation,
`id` uniquely identifies a row and is never reused. -/
structure Store where
  tasks : List Task
  nextId : Nat
deriving Repr, DecidableEq

/-- The empty table; SQLite-style ids start at 1. -/
def initialStore : Store := { tasks := [], nextId := 1 }

/-- Provider insert: assigns the fresh id and appends the row. -/
def Store.insert (st : Store) (t : Task) : Task × Store :=
  let inserted := { t with id := st.nextId }
  (inserted, { tasks := st.tasks ++ [inserted], nextId := st.nextId + 1 })

/-- Provider get-by-id (`session.get(Task, task_id)`). -/
def Store.getTask (st : Store) (task_id : Nat) : Option Task :=
  st.tasks.find? (fun t => t.id == task_id)

/-- Provider delete-by-id (`session.delete(db_task)` + commit). -/
def Store.deleteTask (st : Store) (task_id : Nat) : Store :=
  { st with tasks := st.tasks.filter (fun t => t.id != task_id) }

/-- Provider in-place row replacement (commit of a mutated row). -/
def Store.replaceTask (st : Store) (t : Task) : Store :=
  { st with tasks := st.tasks.map (fun x => if x.id == t.id then t else x) }

/-! ## External enrichment client (`utils/external_api.py`) -/

/-- Configured timeout (`EXTERNAL_API_TIMEOUT`, default 10). -/
def EXTERNAL_API_TIMEOUT : Nat := 10

/-- The `ExternalAPIException` value (`utils/exceptions.py`): a message
and an optional status code (its constructor defaults it to `None`). -/
structure ExternalAPIException where
  message : String
  status_code : Option Nat
deriving Repr, DecidableEq

/-- What the single upstream HTTP round trip does: a response with a
status code and body, a timeout (`httpx.TimeoutException`), a transport
failure (`httpx.RequestError`), or some other unexpected exception. -/
inductive UpstreamOutcome where
  | response (status : Nat) (body : String)
  | timeout
  | transportError
  | otherError
deriving Repr, DecidableEq

/-- Exceptions that can escape the `try` block of
`fetch_external_data`. -/
inductive PyException where
  | timeoutExc
  | requestErrorExc
  | externalAPIExc (e : ExternalAPIException)
  | otherExc
deriving Repr, DecidableEq

/-- The `try` block of `fetch_external_data` (lines 28-49): raises
`ExternalAPIException` with status 404 on an upstream 404, with the
upstream status on any other status >= 400, and otherwise returns the
response body; the transport layer itself may raise timeout, request
or other errors. -/
def fetch_external_data_try (external_id : Int) : UpstreamOutcome → Except PyException String
  | .response status body =>
      if status == 404 then
        .error (.externalAPIExc
          { message := "Resource with ID " ++ toString external_id ++ " not found in external API"
            status_code := some 404 })
      else if status >= 400 then
        .error (.externalAPIExc
          { message := "External API request failed with status " ++ toString status ++ ": " ++ body
            status_code := some status })
      else
        .ok body
  | .timeout => .error .timeoutExc
  | .transportError => .error .requestErrorExc
  | .otherError => .error .otherExc

/-- `fetch_external_data` (lines 15-65): the `try` block followed by
the `except` chain.  The chain checks `httpx.TimeoutException`, then
`httpx.RequestError`, then `except Exception` — the last clause also
catches the `ExternalAPIException` raised inside the `try` block and
re-wraps it with status code 500. -/
def fetch_external_data (external_id : Int) (o : UpstreamOutcome) :
    Except ExternalAPIException String :=
  match fetch_external_data_try external_id o with
  | .ok v => .ok v
  | .error .timeoutExc =>
      .error { message := "Request to external API timed out after " ++
                 toString EXTERNAL_API_TIMEOUT ++ " seconds"
               status_code := some 408 }
  | .error .requestErrorExc =>
      .error { message := "Request error when connecting to external API"
               status_code := some 502 }
  | .error (.externalAPIExc e) =>
      .error { message := "Unexpected error when fetching data from external API: " ++ e.message
               status_code := some 500 }
  | .error .otherExc =>
      .error { message := "Unexpected error when fetching data from external API"
               status_code := some 500 }

/-- Status code carried by a failed fetch (`None` when it succeeded). -/
def fetchStatus : Except ExternalAPIException String → Option Nat
  | .error e => e.status_code
  | .ok _ => none

/-! ## Request schemas and validation (`schemas/task.py`) -/

/-- The parsed fields of a `TaskCreate` request body (`schemas/task.py`,
classes `TaskBase` and `TaskCreate`), before constraint checking. -/
structure TaskCreateData where
  title : String
  description : Option String
  status : String
  priority : String
  user_id : Option String
  external_id : Option Int
deriving Repr, DecidableEq

/-- A violated field constraint, as reported by validation. -/
inductive FieldConstraint where
  | minLength (n : Nat)
  | maxLength (n : Nat)
deriving Repr, DecidableEq

/-- One entry of a validation error report: the field location and the
violated constraint. -/
structure FieldViolation where
  loc : String
  constraint : FieldConstraint
deriving Repr, DecidableEq

/-- Constraint checking of a `TaskCreate` body against the `Field`
bounds of `schemas/task.py` (title 1..255, description <= 1000,
status <= 50, priority <= 20, user_id <= 100).  Validation collects
every violated constraint, in field declaration order, rather than
stopping at the first. -/
def validateTaskCreate (d : TaskCreateData) : List FieldViolation :=
  (if d.title.length < 1 then [⟨"title", .minLength 1⟩] else []) ++
  (if d.title.length > 255 then [⟨"title", .maxLength 255⟩] else []) ++
  (match d.description with
   | some s => if s.length > 1000 then [⟨"description", .maxLength 1000⟩] else []
   | none => []) ++
  (if d.status.length > 50 then [⟨"status", .maxLength 50⟩] else []) ++
  (if d.priority.length > 20 then [⟨"priority", .maxLength 20⟩] else []) ++
  (match d.user_id with
   | some s => if s.length > 100 then [⟨"user_id", .maxLength 100⟩] else []
   | none => [])

/-- The `TaskUpdate` schema of `schemas/task.py` (lines 24-33) after
`model_dump(exclude_unset=True)`: every field carries an explicit
present/absent marker (outer `Option`) and, when present, a possibly
null value (inner `Option`) — the schema declares all five fields as
`Optional`, so an explicit `null` is an accepted present value.  The
schema has no `completed_at` field. -/
structure TaskUpdateData where
  title : Option (Option String)
  description : Option (Option String)
  status : Option (Option String)
  priority : Option (Option String)
  user_id : Option (Option String)
deriving Repr, DecidableEq

/-- A raw update request body: the five declared fields plus a
`completed_at` key a caller may also send. -/
structure TaskUpdateRaw where
  title : Option (Option String)
  description : Option (Option String)
  status : Option (Option String)
  priority : Option (Option String)
  user_id : Option (Option String)
  completed_at : Option (Option Nat)
deriving Repr, DecidableEq

/-- Parsing a raw body into the `TaskUpdate` schema: pydantic keeps the
declared fields and ignores undeclared keys (default model config), so
`completed_at` is dropped. -/
def parseTaskUpdate (r : TaskUpdateRaw) : TaskUpdateData :=
  { title := r.title, description := r.description, status := r.status
    priority := r.priority, user_id := r.user_id }

/-- The `TaskResponse` schema (`schemas/task.py`, lines 35-44), built
by the route handlers field by field from the stored row; it carries no
`external_api_data` field. -/
structure TaskResponseData where
  id : Nat
  title : Option String
  description : Option String
  status : Option String
  priority : Option String
  external_id : Option Int
  user_id : Option String
  created_at : Nat
  updated_at : Nat
  completed_at : Option Nat
deriving Repr, DecidableEq

/-- The field-by-field copy from the stored row into `TaskResponse`
performed by every handler in `api/tasks.py`. -/
def toResponse (t : Task) : TaskResponseData :=
  { id := t.id, title := t.title, description := t.description
    status := t.status, priority := t.priority, external_id := t.external_id
    user_id := t.user_id, created_at := t.created_at
    updated_at := t.updated_at, completed_at := t.completed_at }

/-- `TaskListResponse` (`schemas/task.py`, lines 47-54). -/
structure TaskListResponseData where
  tasks : List TaskResponseData
  total : Nat
  page : Nat
  size : Nat
deriving Repr, DecidableEq

/-! ## Failures reaching the boundary -/

/-- A failure leaving a route handler: an `HTTPException` with a status
code and detail string, or a request-validation failure carrying the
collected field violations. -/
inductive ApiFailure where
  | http (status_code : Nat) (detail : String)
  | validation (errors : List FieldViolation)
deriving Repr, DecidableEq

/-! ## Route handlers (`api/tasks.py`) -/

/-- Python truthiness of an `Optional[int]` attribute: `None` and `0`
are falsy, every other integer is truthy. -/
def pyTruthyInt : Option Int → Bool
  | none => false
  | some n => n != 0

/-- Python truthiness of an `Optional[str]` query parameter: `None` and
the empty string are falsy. -/
def pyTruthyStr : Option String → Bool
  | none => false
  | some s => !s.isEmpty

/-- The gate `if db_task.external_id:` at `api/tasks.py` line 38 that
decides whether `create_task` invokes the enrichment client. -/
def enrichmentInvoked (d : TaskCreateData) : Bool :=
  pyTruthyInt d.external_id

/-- `create_task` (`api/tasks.py`, lines 18-70) after the request body
passed validation.  `t1` and `t2` are the two successive
`datetime.utcnow()` readings taken by the `created_at` and `updated_at`
`default_factory` calls of `Task.model_validate` (two separate clock
reads, so `t1 <= t2` for a monotone clock).  `fetchResult` is the
outcome `fetch_external_data(db_task.external_id)` would produce; it is
consulted only when the line-38 truthiness gate passes, an enrichment
failure is caught, logged and ignored, and on success the serialized
payload is stored into `external_api_data`. -/
def create_task (st : Store) (d : TaskCreateData) (t1 t2 : Nat)
    (fetchResult : Except ExternalAPIException String) :
    (Except ApiFailure TaskResponseData) × Store :=
  let db_task : Task :=
    { id := 0, title := some d.title, description := d.description
      status := some d.status, priority := some d.priority
      external_id := d.external_id, external_api_data := none
      user_id := d.user_id, created_at := t1, updated_at := t2
      completed_at := none }
  let db_task :=
    if pyTruthyInt d.external_id then
      match fetchResult with
      | .ok external_data => { db_task with external_api_data := some external_data }
      | .error _ => db_task
    else db_task
  let (inserted, st1) := st.insert db_task
  (.ok (toResponse inserted), st1)

/-- The create endpoint: the dispatcher parses and validates the body
before the handler runs; a nonempty violation list becomes a
`RequestValidationError` and the handler is never entered. -/
def create_endpoint (st : Store) (d : TaskCreateData) (t1 t2 : Nat)
    (fetchResult : Except ExternalAPIException String) :
    (Except ApiFailure TaskResponseData) × Store :=
  if validateTaskCreate d = [] then create_task st d t1 t2 fetchResult
  else (.error (.validation (validateTaskCreate d)), st)

/-- `get_task` (`api/tasks.py`, lines 73-120): 404 when the id is
absent, otherwise the stored row copied into a `TaskResponse`. -/
def get_task (st : Store) (task_id : Nat) : Except ApiFailure TaskResponseData :=
  match st.getTask task_id with
  | none => .error (.http 404 ("Task with ID " ++ toString task_id ++ " not found"))
  | some task => .ok (toResponse task)

/-- The per-field `setattr` loop of `update_task` (lines 151-153) over
`task_data.model_dump(exclude_unset=True)`: every explicitly present
field is assigned, an explicitly present `null` included; absent fields
are untouched.  `completed_at` is not a schema field, so the loop never
assigns it. -/
def applyUpdate (t : Task) (u : TaskUpdateData) : Task :=
  { t with
    title := u.title.getD t.title
    description := u.description.getD t.description
    status := u.status.getD t.status
    priority := u.priority.getD t.priority
    user_id := u.user_id.getD t.user_id }

/-- Line 156 of `api/tasks.py`:
`db_task.updated_at = db_task.updated_at.__class__()`.
`updated_at.__class__` is `datetime.datetime`, and calling `datetime`
with no arguments raises `TypeError` (year, month and day are required
positional arguments), so this expression never produces a value. -/
def datetimeNoArgs : Except Unit Nat := .error ()

/-- `update_task` (`api/tasks.py`, lines 123-184): 404 when the id is
absent; otherwise the present fields are merged into the row, then
line 156 attempts `updated_at.__class__()`.  The resulting `TypeError`
is caught by the `except Exception` clause of the handler, which raises a
500 `HTTPException`; `session.commit()` is never reached, so the store
is unchanged.  The `.ok` branch embeds the commit-and-respond code
after line 156, which is unreachable. -/
def update_task (st : Store) (task_id : Nat) (u : TaskUpdateData) :
    (Except ApiFailure TaskResponseData) × Store :=
  match st.getTask task_id with
  | none => (.error (.http 404 ("Task with ID " ++ toString task_id ++ " not found")), st)
  | some db_task =>
      let merged := applyUpdate db_task u
      match datetimeNoArgs with
      | .error _ => (.error (.http 500 "An error occurred while updating the task"), st)
      | .ok now =>
          let updated := { merged with updated_at := now }
          (.ok (toResponse updated), st.replaceTask updated)

/-- The update endpoint: the dispatcher parses the raw body through the
`TaskUpdate` schema (dropping undeclared keys such as `completed_at`)
and hands it to `update_task`. -/
def update_endpoint (st : Store) (task_id : Nat) (r : TaskUpdateRaw) :
    (Except ApiFailure TaskResponseData) × Store :=
  update_task st task_id (parseTaskUpdate r)

/-- `delete_task` (`api/tasks.py`, lines 187-221): 404 when the id is
absent, otherwise the row is removed permanently. -/
def delete_task (st : Store) (task_id : Nat) :
    (Except ApiFailure Unit) × Store :=
  match st.getTask task_id with
  | none => (.error (.http 404 ("Task with ID " ++ toString task_id ++ " not found")), st)
  | some _ => (.ok (), st.deleteTask task_id)

/-- `list_tasks` (`api/tasks.py`, lines 224-298): each filter is added
to the query only when the parameter is truthy (`if status_filter:`),
the total is computed from an identically filtered query before
pagination, and the page is `offset(skip).limit(limit)` of the
filtered rows. -/
def list_tasks (st : Store) (skip limit : Nat)
    (status_filter priority_filter : Option String) : TaskListResponseData :=
  let query := st.tasks
  let query := if pyTruthyStr status_filter then
      query.filter (fun t => t.status == status_filter) else query
  let query := if pyTruthyStr priority_filter then
      query.filter (fun t => t.priority == priority_filter) else query
  let total_query := st.tasks
  let total_query := if pyTruthyStr status_filter then
      total_query.filter (fun t => t.status == status_filter) else total_query
  let total_query := if pyTruthyStr priority_filter then
      total_query.filter (fun t => t.priority == priority_filter) else total_query
  let total := total_query.length
  let page := (query.drop skip).take limit
  { tasks := page.map toResponse, total := total
    page := skip / limit + 1, size := limit }

/-! ## Error translation (`utils/exception_handlers.py`) -/

/-- The error body shape produced by the translation layer: a status
code, an optional machine-readable code, and the detail (a violation
list for validation failures, a message otherwise). -/
structure ErrorBody where
  status_code : Nat
  error_code : Option String
  detail_errors : List FieldViolation
  detail_msg : Option String
deriving Repr, DecidableEq

/-- `validation_exception_handler` (lines 34-62): maps every entry of
`exc.errors()` into the detail list (not only the first) and responds
422 with error code VALIDATION_ERROR. -/
def validation_exception_handler (errors : List FieldViolation) : ErrorBody :=
  { status_code := 422, error_code := some "VALIDATION_ERROR"
    detail_errors := errors, detail_msg := none }

/-- `external_api_exception_handler` (lines 11-31): the status code of the exception, its own value
status code, defaulting to 502, with error code EXTERNAL_API_ERROR. -/
def external_api_exception_handler (e : ExternalAPIException) : ErrorBody :=
  { status_code := e.status_code.getD 502, error_code := some "EXTERNAL_API_ERROR"
    detail_errors := [], detail_msg := some e.message }

/-- Rendering of an `HTTPException` by the dispatcher: plain detail, no
error code. -/
def http_exception_body (status_code : Nat) (detail : String) : ErrorBody :=
  { status_code := status_code, error_code := none
    detail_errors := [], detail_msg := some detail }

/-- Translation of any failure leaving a route handler. -/
def translateFailure : ApiFailure → ErrorBody
  | .http s d => http_exception_body s d
  | .validation errs => validation_exception_handler errs

/-! ## Operation traces

A run of the service is a sequence of endpoint invocations against the
store; traces are used to state id freshness across a whole run. -/

/-- One endpoint invocation with all its request data and, for create,
the clock readings and the enrichment outcome. -/
inductive Op where
  | createOp (d : TaskCreateData) (t1 t2 : Nat)
      (fetchResult : Except ExternalAPIException String)
  | updateOp (task_id : Nat) (r : TaskUpdateRaw)
  | deleteOp (task_id : Nat)
  | getOp (task_id : Nat)
  | listOp (skip limit : Nat) (status_filter priority_filter : Option String)
deriving Repr

/-- Store transition of one endpoint invocation. -/
def stepStore (st : Store) : Op → Store
  | .createOp d t1 t2 f => (create_endpoint st d t1 t2 f).snd
  | .updateOp task_id r => (update_endpoint st task_id r).snd
  | .deleteOp task_id => (delete_task st task_id).snd
  | .getOp _ => st
  | .listOp _ _ _ _ => st

/-- The ids handed out by the successful creates of a trace, in order:
a create that passes validation persists a row whose id is the
`nextId` of the provider at that moment. -/
def assignedFrom (st : Store) : List Op → List Nat
  | [] => []
  | .createOp d t1 t2 f :: rest =>
      (if validateTaskCreate d = [] then [st.nextId] else []) ++
        assignedFrom (stepStore st (.createOp d t1 t2 f)) rest
  | .updateOp task_id r :: rest =>
      assignedFrom (stepStore st (.updateOp task_id r)) rest
  | .deleteOp task_id :: rest =>
      assignedFrom (stepStore st (.deleteOp task_id)) rest
  | .getOp task_id :: rest =>
      assignedFrom (stepStore st (.getOp task_id)) rest
  | .listOp skip limit sf pf :: rest =>
      assignedFrom (stepStore st (.listOp skip limit sf pf)) rest

/-- The ids assigned over a whole run from the empty table. -/
def assignedIds (ops : List Op) : List Nat :=
  assignedFrom initialStore ops

/-! ## Result extractors (used to state closed properties) -/

/-- Whether a get result is the 404 not-found failure. -/
def isNotFound404 : Except ApiFailure TaskResponseData → Bool
  | .error (.http 404 _) => true
  | _ => false

/-- `created_at == updated_at` of a returned task (`false` when the
operation failed). -/
def respTimesEqual : Except ApiFailure TaskResponseData → Bool
  | .ok r => r.created_at == r.updated_at
  | .error _ => false

/-- `created_at <= updated_at` of a returned task (`true` when the
operation failed). -/
def respTimesOrdered : Except ApiFailure TaskResponseData → Bool
  | .ok r => decide (r.created_at ≤ r.updated_at)
  | .error _ => true

/-- The `completed_at` of a returned task (`none` when the operation
failed). -/
def respCompletedAt : Except ApiFailure TaskResponseData → Option (Option Nat)
  | .ok r => some r.completed_at
  | .error _ => none

/-- The `external_api_data` of the most recently inserted row. -/
def lastExternalApiData (st : Store) : Option (Option String) :=
  st.tasks.getLast?.map (fun t => t.external_api_data)

/-- The reading the claim gives the list filters: a provided filter is an
equality constraint on the corresponding column, filters AND-combined. -/
def specMatches (status_filter priority_filter : Option String) (t : Task) : Bool :=
  (match status_filter with
   | none => true
   | some s => t.status == some s) &&
  (match priority_filter with
   | none => true
   | some p => t.priority == some p)

/-! ## Concrete fixtures -/

/-- A well-formed create body used as a concrete test input. -/
def sampleCreate : TaskCreateData :=
  { title := "Test Task", description := some "Test Description"
    status := "pending", priority := "medium"
    user_id := some "user123", external_id := some 7 }

/-- The same body with `external_id = 0`. -/
def sampleCreateZero : TaskCreateData :=
  { sampleCreate with external_id := some 0 }

/-- A stored row with id 1, as produced by a successful create. -/
def sampleTask : Task :=
  { id := 1, title := some "Original Task"
    description := some "Original Description", status := some "pending"
    priority := some "low", external_id := none, external_api_data := none
    user_id := some "user789", created_at := 0, updated_at := 0
    completed_at := none }

/-- A one-row table holding `sampleTask`. -/
def sampleStore : Store := { tasks := [sampleTask], nextId := 2 }

/-- An update body that touches nothing. -/
def emptyUpdate : TaskUpdateData :=
  { title := none, description := none, status := none
    priority := none, user_id := none }

/-- A raw update body that explicitly provides `completed_at`. -/
def completedAtRaw : TaskUpdateRaw :=
  { title := none, description := none, status := none
    priority := none, user_id := none, completed_at := some (some 5) }

/-- A create body violating two constraints at once: empty title and a
priority longer than 20 characters. -/
def badCreate : TaskCreateData :=
  { title := "", description := none, status := "pending"
    priority := "a far far far too long priority value"
    user_id := none, external_id := none }

/-! ## Helper lemmas -/

lemma getTask_deleteTask (st : Store) (task_id : Nat) :
    (st.deleteTask task_id).getTask task_id = none := by
  rw [Store.deleteTask, Store.getTask, List.find?_eq_none]
  intro x hx
  have hne : (x.id != task_id) = true := (List.mem_filter.mp hx).2
  simpa using hne

lemma stepStore_nextId_le (st : Store) (op : Op) :
    st.nextId ≤ (stepStore st op).nextId := by
  cases op with
  | createOp d t1 t2 f =>
      by_cases hv : validateTaskCreate d = []
      · simp [stepStore, create_endpoint, hv, create_task, Store.insert]
      · simp [stepStore, create_endpoint, hv]
  | updateOp task_id r =>
      cases hg : st.getTask task_id <;>
        simp [stepStore, update_endpoint, update_task, hg, datetimeNoArgs]
  | deleteOp task_id =>
      cases hg : st.getTask task_id <;>
        simp [stepStore, delete_task, hg, Store.deleteTask]
  | getOp task_id => simp [stepStore]
  | listOp skip limit sf pf => simp [stepStore]

lemma stepStore_create_nextId (st : Store) (d : TaskCreateData)
    (t1 t2 : Nat) (f : Except ExternalAPIException String)
    (hv : validateTaskCreate d = []) :
    (stepStore st (.createOp d t1 t2 f)).nextId = st.nextId + 1 := by
  simp [stepStore, create_endpoint, hv, create_task, Store.insert]

lemma assignedFrom_le (ops : List Op) :
    ∀ st : Store, ∀ i ∈ assignedFrom st ops, st.nextId ≤ i := by
  induction ops with
  | nil => intro st i hi; simp [assignedFrom] at hi
  | cons op rest ih =>
      intro st i hi
      cases op with
      | createOp d t1 t2 f =>
          rw [assignedFrom] at hi
          rcases List.mem_append.mp hi with h1 | h2
          · by_cases hv : validateTaskCreate d = []
            · simp [hv] at h1; omega
            · simp [hv] at h1
          · exact le_trans (stepStore_nextId_le st _) (ih _ i h2)
      | updateOp task_id r =>
          rw [assignedFrom] at hi
          exact le_trans (stepStore_nextId_le st _) (ih _ i hi)
      | deleteOp task_id =>
          rw [assignedFrom] at hi
          exact le_trans (stepStore_nextId_le st _) (ih _ i hi)
      | getOp task_id =>
          rw [assignedFrom] at hi
          exact le_trans (stepStore_nextId_le st _) (ih _ i hi)
      | listOp skip limit sf pf =>
          rw [assignedFrom] at hi
          exact le_trans (stepStore_nextId_le st _) (ih _ i hi)

lemma assignedFrom_pairwise_lt (ops : List Op) :
    ∀ st : Store, (assignedFrom st ops).Pairwise (· < ·) := by
  induction ops with
  | nil => intro st; simp [assignedFrom]
  | cons op rest ih =>
      intro st
      cases op with
      | createOp d t1 t2 f =>
          rw [assignedFrom]
          by_cases hv : validateTaskCreate d = []
          · simp only [hv, if_pos rfl, List.singleton_append]
            refine List.Pairwise.cons ?_ (ih _)
            intro b hb
            have h1 := assignedFrom_le rest _ b hb
            rw [stepStore_create_nextId st d t1 t2 f hv] at h1
            omega
          · simp only [hv, if_neg hv, List.nil_append]
            exact ih _
      | updateOp task_id r => rw [assignedFrom]; exact ih _
      | deleteOp task_id => rw [assignedFrom]; exact ih _
      | getOp task_id => rw [assignedFrom]; exact ih _
      | listOp skip limit sf pf => rw [assignedFrom]; exact ih _

/-! ## Claim theorems -/

/-- Claim C1.  The claim says `updateTask` applies the present fields,
sets `updated_at` to the current time and returns the updated Task.
The code instead fails on every existing id: line 156 evaluates
`db_task.updated_at.__class__()`, i.e. `datetime()` with no arguments,
which raises `TypeError`; the `except Exception` clause turns that
into a 500 response before any commit, so the store is unchanged and
no updated Task is ever returned. -/
theorem update_always_internal_error (st : Store) (task_id : Nat)
    (u : TaskUpdateData) (h : (st.getTask task_id).isSome = true) :
    update_task st task_id u =
      (.error (.http 500 "An error occurred while updating the task"), st) := by
  obtain ⟨t, ht⟩ := Option.isSome_iff_exists.mp h
  simp [update_task, ht, datetimeNoArgs]

/-- Witness for C1: the bug at the concrete store holding task 1. -/
theorem update_always_internal_error_witness :
    update_task sampleStore 1 emptyUpdate =
      (.error (.http 500 "An error occurred while updating the task"), sampleStore) :=
  update_always_internal_error sampleStore 1 emptyUpdate rfl

/-- Claim C2.  The claim says an upstream 404 fails with status 404 and
any other upstream status >= 400 fails with that status.  In the code
the `ExternalAPIException` raised inside the `try` block (with status
404, resp. the upstream status) is itself caught by the trailing
`except Exception` clause, which re-raises with status 500: for
externalId 99999 and an upstream 404 the failure carries status 500,
and an upstream 503 also becomes status 500. -/
theorem fetch_upstream_error_wrapped_to_500 :
    fetchStatus (fetch_external_data 99999 (.response 404 "")) = some 500 ∧
    fetchStatus (fetch_external_data 99999 (.response 503 "Service Unavailable")) = some 500 ∧
    (fetch_external_data 99999 (.response 404 "")).isOk = false := by
  refine ⟨rfl, rfl, rfl⟩

/-- Claim C8: a successful `deleteTask(id)` removes the record, so an
immediately following `getTask(id)` fails with the 404 not-found
failure. -/
theorem delete_then_get_not_found (st : Store) (task_id : Nat)
    (h : (delete_task st task_id).fst = .ok ()) :
    isNotFound404 (get_task (delete_task st task_id).snd task_id) = true := by
  cases hg : st.getTask task_id with
  | none => rw [delete_task, hg] at h; simp at h
  | some t =>
      rw [delete_task, hg]
      rw [get_task, getTask_deleteTask]
      rfl

/-- Witness for C8 at the concrete one-row store. -/
theorem delete_then_get_not_found_witness :
    isNotFound404 (get_task (delete_task sampleStore 1).snd 1) = true :=
  delete_then_get_not_found sampleStore 1 rfl

/-- Claim C3: for a valid create body with `external_id` present, when
the enrichment call fails (any failure value), the handler still
succeeds, a row is persisted, and that row has its
`external_api_data` is unset — the enrichment failure never reaches
the caller. -/
theorem create_survives_enrichment_failure (st : Store) (d : TaskCreateData)
    (t1 t2 : Nat) (e : ExternalAPIException) (n : Int)
    (hext : d.external_id = some n) (hv : validateTaskCreate d = []) :
    (create_endpoint st d t1 t2 (.error e)).fst.isOk = true ∧
    (create_endpoint st d t1 t2 (.error e)).snd.tasks.length = st.tasks.length + 1 ∧
    lastExternalApiData (create_endpoint st d t1 t2 (.error e)).snd = some none := by
  refine ⟨?_, ?_, ?_⟩ <;>
    simp [create_endpoint, hv, create_task, Store.insert, lastExternalApiData,
      Except.isOk, Except.toBool]

/-- Witness for C3 at a concrete valid body with `external_id = 7` and
a concrete enrichment failure. -/
theorem create_survives_enrichment_failure_witness :
    (create_endpoint initialStore sampleCreate 0 1 (.error ⟨"API Error", some 500⟩)).fst.isOk = true ∧
    (create_endpoint initialStore sampleCreate 0 1 (.error ⟨"API Error", some 500⟩)).snd.tasks.length = initialStore.tasks.length + 1 ∧
    lastExternalApiData (create_endpoint initialStore sampleCreate 0 1 (.error ⟨"API Error", some 500⟩)).snd = some none :=
  create_survives_enrichment_failure initialStore sampleCreate 0 1
    ⟨"API Error", some 500⟩ 7 rfl rfl

/-- Claim C9: with `external_id` present but equal to 0, the truthiness
gate `if db_task.external_id:` is false, so the enrichment client is
never invoked — the outcome is identical for any two enrichment
results — and the persisted row has `external_api_data` unset. -/
theorem create_zero_external_id_skips_enrichment (st : Store)
    (d : TaskCreateData) (t1 t2 : Nat)
    (f g : Except ExternalAPIException String)
    (hz : d.external_id = some 0) (hv : validateTaskCreate d = []) :
    enrichmentInvoked d = false ∧
    create_endpoint st d t1 t2 f = create_endpoint st d t1 t2 g ∧
    lastExternalApiData (create_endpoint st d t1 t2 f).snd = some none := by
  refine ⟨?_, ?_, ?_⟩ <;>
    simp [enrichmentInvoked, pyTruthyInt, hz, create_endpoint, hv, create_task,
      Store.insert, lastExternalApiData]

/-- Witness for C9 at a concrete body with `external_id = 0`, comparing
a successful and a failing enrichment outcome. -/
theorem create_zero_external_id_skips_enrichment_witness :
    enrichmentInvoked sampleCreateZero = false ∧
    create_endpoint initialStore sampleCreateZero 0 1 (.ok "payload") =
      create_endpoint initialStore sampleCreateZero 0 1 (.error ⟨"down", some 502⟩) ∧
    lastExternalApiData (create_endpoint initialStore sampleCreateZero 0 1 (.ok "payload")).snd = some none :=
  create_zero_external_id_skips_enrichment initialStore sampleCreateZero 0 1
    (.ok "payload") (.error ⟨"down", some 502⟩) rfl rfl

/-- Counterexample to claim C4.  The claim says an update with
`completed_at` explicitly provided sets it to the provided value.  At
the concrete one-row store and a raw update body that explicitly
provides `completed_at = 5` for the existing task 1, the operation
returns no task whose `completed_at` is 5: the `TaskUpdate` schema has
no `completed_at` field (the key is dropped at parse time), and the
update fails with a 500 anyway. -/
theorem completed_at_update_counterexample :
    ¬ respCompletedAt (update_endpoint sampleStore 1 completedAtRaw).fst = some (some 5) := by
  decide

/-- Claim C4 as amended: no operation ever sets `completed_at`.  The
field-merge loop leaves `completed_at` untouched (it is not a schema
field), a successful create always persists `completed_at` unset, and
the update endpoint never changes the store at all. -/
theorem completed_at_never_set :
    (∀ (t : Task) (u : TaskUpdateData),
        (applyUpdate t u).completed_at = t.completed_at) ∧
    (∀ (st : Store) (d : TaskCreateData) (t1 t2 : Nat)
        (f : Except ExternalAPIException String),
        validateTaskCreate d = [] →
        respCompletedAt (create_endpoint st d t1 t2 f).fst = some none) ∧
    (∀ (st : Store) (task_id : Nat) (r : TaskUpdateRaw),
        (update_endpoint st task_id r).snd = st) := by
  refine ⟨fun t u => rfl, ?_, ?_⟩
  · intro st d t1 t2 f hv
    simp [create_endpoint, hv, create_task, Store.insert, respCompletedAt,
      toResponse]
    cases f <;> simp
    split <;> rfl
  · intro st task_id r
    cases hg : st.getTask task_id <;>
      simp [update_endpoint, update_task, hg, datetimeNoArgs]

/-- Witness for the amended C4 at a concrete create. -/
theorem completed_at_never_set_witness :
    respCompletedAt (create_endpoint initialStore sampleCreate 0 1 (.ok "p")).fst = some none :=
  completed_at_never_set.2.1 initialStore sampleCreate 0 1 (.ok "p") rfl

/-- Counterexample to claim C6.  `created_at` and `updated_at` are two
separate `datetime.utcnow()` default-factory reads; on the monotone
clock trace reading 0 then 1, a valid create succeeds but returns a
task with `created_at` different from `updated_at`, refuting
`created_at == updated_at`. -/
theorem create_times_counterexample :
    (create_endpoint initialStore sampleCreate 0 1 (.ok "p")).fst.isOk = true ∧
    respTimesEqual (create_endpoint initialStore sampleCreate 0 1 (.ok "p")).fst = false := by
  decide

/-- Claim C6 as amended: for every valid create input, the returned
task satisfies `created_at <= updated_at` (the two clock reads happen
in order, and are equal exactly when the clock does not advance
between them), and the ids handed out by the creates of any run of
operations from the empty store are pairwise distinct — each is
freshly assigned and distinct from every previously assigned id. -/
theorem create_times_ordered_and_ids_fresh :
    (∀ (st : Store) (d : TaskCreateData) (t1 t2 : Nat)
        (f : Except ExternalAPIException String), t1 ≤ t2 →
        respTimesOrdered (create_endpoint st d t1 t2 f).fst = true) ∧
    (∀ ops : List Op, (assignedIds ops).Pairwise (· ≠ ·)) := by
  constructor
  · intro st d t1 t2 f h
    by_cases hv : validateTaskCreate d = []
    · simp [create_endpoint, hv, create_task, Store.insert, respTimesOrdered,
        toResponse]
      cases f <;> simp [h]
      split <;> simpa using h
    · simp [create_endpoint, hv, respTimesOrdered]
  · intro ops
    exact (assignedFrom_pairwise_lt ops initialStore).imp Nat.ne_of_lt

/-- Witness for the amended C6: ordered timestamps at a concrete create
whose two clock reads are 3 and 4. -/
theorem create_times_ordered_and_ids_fresh_witness :
    respTimesOrdered (create_endpoint initialStore sampleCreate 3 4 (.ok "p")).fst = true :=
  create_times_ordered_and_ids_fresh.1 initialStore sampleCreate 3 4 (.ok "p")
    (by decide)

/-- Claim C10: a filter provided as the empty string is falsy under the
`if status_filter:` / `if priority_filter:` gates, so the whole result
equals that of the same call with the filter absent. -/
theorem list_empty_string_filter_ignored (st : Store) (skip limit : Nat)
    (status_filter priority_filter : Option String) :
    list_tasks st skip limit (some "") priority_filter =
      list_tasks st skip limit none priority_filter ∧
    list_tasks st skip limit status_filter (some "") =
      list_tasks st skip limit status_filter none :=
  ⟨rfl, rfl⟩

/-- Counterexample to claim C5.  On the one-row store (its task has
status "pending") with `statusFilter` provided as the empty string,
the code ignores the filter and reports `total = 1`, while the records
matching the AND-combined equality filters of the claim number 0. -/
theorem list_tasks_empty_filter_counterexample :
    (list_tasks sampleStore 0 10 (some "") none).total = 1 ∧
    (sampleStore.tasks.filter (specMatches (some "") none)).length = 0 := by
  decide

lemma isEmpty_false_of_ne (s : String) (h : s ≠ "") : s.isEmpty = false := by
  cases he : s.isEmpty
  · rfl
  · exact absurd ((String.isEmpty_iff s).mp he) h

/-- Claim C5 as amended: for every store and every
`listTasks(skip, limit, statusFilter?, priorityFilter?)` call with
`1 <= limit <= 100` and each provided filter non-empty (an
empty-string filter is ignored by the truthiness gate, as if absent),
`total` is the count of records matching the AND-combined equality
filters before pagination, the returned tasks are the matching records
after dropping `skip` and taking at most `limit`, `page` is
`skip / limit + 1` under integer division, and `size` is `limit`. -/
theorem list_tasks_pagination (st : Store) (skip limit : Nat)
    (status_filter priority_filter : Option String)
    (hl1 : 1 ≤ limit) (hl2 : limit ≤ 100)
    (hsf : status_filter ≠ some "") (hpf : priority_filter ≠ some "") :
    (list_tasks st skip limit status_filter priority_filter).total =
      (st.tasks.filter (specMatches status_filter priority_filter)).length ∧
    (list_tasks st skip limit status_filter priority_filter).tasks =
      (((st.tasks.filter (specMatches status_filter priority_filter)).drop skip).take limit).map toResponse ∧
    (list_tasks st skip limit status_filter priority_filter).page = skip / limit + 1 ∧
    (list_tasks st skip limit status_filter priority_filter).size = limit := by
  have key : ∀ l : List Task,
      (if pyTruthyStr priority_filter then
          (if pyTruthyStr status_filter then
              l.filter (fun t => t.status == status_filter) else l).filter
            (fun t => t.priority == priority_filter)
        else if pyTruthyStr status_filter then
          l.filter (fun t => t.status == status_filter) else l)
      = l.filter (specMatches status_filter priority_filter) := by
    intro l
    rcases status_filter with _ | s <;> rcases priority_filter with _ | p
    · exact (List.filter_true l).symm
    · have hp : p ≠ "" := fun hh => hpf (by rw [hh])
      simp only [pyTruthyStr, isEmpty_false_of_ne p hp, Bool.not_false, if_true,
        Bool.false_eq_true, if_false]
      rfl
    · have hs : s ≠ "" := fun hh => hsf (by rw [hh])
      simp only [pyTruthyStr, isEmpty_false_of_ne s hs, Bool.not_false, if_true,
        Bool.false_eq_true, if_false]
      refine List.filter_congr ?_
      intro t ht
      simp [specMatches]
    · have hs : s ≠ "" := fun hh => hsf (by rw [hh])
      have hp : p ≠ "" := fun hh => hpf (by rw [hh])
      simp only [pyTruthyStr, isEmpty_false_of_ne s hs, isEmpty_false_of_ne p hp,
        Bool.not_false, if_true]
      rw [List.filter_filter]
      refine List.filter_congr ?_
      intro t ht
      simp [specMatches, Bool.and_comm]
  refine ⟨?_, ?_, rfl, rfl⟩
  · simp only [list_tasks]
    rw [key st.tasks]
  · simp only [list_tasks]
    rw [key st.tasks]

/-- Witness for the amended C5 at the concrete one-row store with a
non-empty status filter. -/
theorem list_tasks_pagination_witness :
    (list_tasks sampleStore 0 10 (some "pending") none).total =
      (sampleStore.tasks.filter (specMatches (some "pending") none)).length ∧
    (list_tasks sampleStore 0 10 (some "pending") none).tasks =
      (((sampleStore.tasks.filter (specMatches (some "pending") none)).drop 0).take 10).map toResponse ∧
    (list_tasks sampleStore 0 10 (some "pending") none).page = 0 / 10 + 1 ∧
    (list_tasks sampleStore 0 10 (some "pending") none).size = 10 :=
  list_tasks_pagination sampleStore 0 10 (some "pending") none (by decide)
    (by decide) (by decide) (by decide)

lemma mem_if_singleton {α : Type} (a b : α) (c : Prop) [Decidable c] :
    a ∈ (if c then [b] else []) ↔ c ∧ a = b := by
  split <;> simp_all

/-- Claim C7: a create body violating one or more field constraints
fails with a validation failure carrying the full collected violation
list; the translator renders it with status 422 and error code
VALIDATION_ERROR, keeping every entry; and the violation list contains
an entry for each violated field constraint — not only the first. -/
theorem create_validation_reports_all (st : Store) (d : TaskCreateData)
    (t1 t2 : Nat) (f : Except ExternalAPIException String)
    (hv : validateTaskCreate d ≠ []) :
    create_endpoint st d t1 t2 f = (.error (.validation (validateTaskCreate d)), st) ∧
    (translateFailure (.validation (validateTaskCreate d))).status_code = 422 ∧
    (translateFailure (.validation (validateTaskCreate d))).error_code = some "VALIDATION_ERROR" ∧
    (translateFailure (.validation (validateTaskCreate d))).detail_errors = validateTaskCreate d ∧
    ((⟨"title", .minLength 1⟩ : FieldViolation) ∈ validateTaskCreate d ↔ d.title.length < 1) ∧
    ((⟨"title", .maxLength 255⟩ : FieldViolation) ∈ validateTaskCreate d ↔ d.title.length > 255) ∧
    (∀ s, d.description = some s →
      ((⟨"description", .maxLength 1000⟩ : FieldViolation) ∈ validateTaskCreate d ↔ s.length > 1000)) ∧
    ((⟨"status", .maxLength 50⟩ : FieldViolation) ∈ validateTaskCreate d ↔ d.status.length > 50) ∧
    ((⟨"priority", .maxLength 20⟩ : FieldViolation) ∈ validateTaskCreate d ↔ d.priority.length > 20) ∧
    (∀ s, d.user_id = some s →
      ((⟨"user_id", .maxLength 100⟩ : FieldViolation) ∈ validateTaskCreate d ↔ s.length > 100)) := by
  refine ⟨?_, rfl, rfl, rfl, ?_, ?_, ?_, ?_, ?_, ?_⟩
  · simp [create_endpoint, hv]
  · cases hd : d.description <;> cases hu : d.user_id <;>
      simp [validateTaskCreate, hd, hu, mem_if_singleton]
  · cases hd : d.description <;> cases hu : d.user_id <;>
      simp [validateTaskCreate, hd, hu, mem_if_singleton]
  · intro s hs
    cases hu : d.user_id <;>
      simp [validateTaskCreate, hs, hu, mem_if_singleton]
  · cases hd : d.description <;> cases hu : d.user_id <;>
      simp [validateTaskCreate, hd, hu, mem_if_singleton]
  · cases hd : d.description <;> cases hu : d.user_id <;>
      simp [validateTaskCreate, hd, hu, mem_if_singleton]
  · intro s hs
    cases hd : d.description <;>
      simp [validateTaskCreate, hs, hd, mem_if_singleton]

/-- Witness for C7 at a concrete body violating two constraints at
once (empty title, over-long priority). -/
theorem create_validation_reports_all_witness :
    create_endpoint initialStore badCreate 0 0 (.ok "p") =
      (.error (.validation (validateTaskCreate badCreate)), initialStore) :=
  (create_validation_reports_all initialStore badCreate 0 0 (.ok "p") (by decide)).1

end Showbay
